import Mathlib

/-!
Verification development for the salted link checker.

The definitions below are a shallow embedding of the Python sources:
`url_check.py`, `network_interaction.py`, `database_io.py`,
`cache_reader.py`, `memory_instance.py`, `doi_check.py`,
`input_handler.py` and `__main__.py`.  Network interaction is modelled
by an explicit server behaviour handed to the probing functions; the
SQLite tables are modelled as lists of rows with inserts appending at
the end; Python exceptions are modelled with `Except`.
-/

namespace Salted

/-- Kind of HTTP request issued by the URL prober: a headers-only probe
or a full request with a bounded body read. -/
inductive ReqKind
  | head
  | full
deriving DecidableEq, Repr

/-- Outcome of one HTTP attempt: either a status code or one of the
raised conditions handled by the prober.  `otherRaise` stands for any
raised condition outside the fixed taxonomy. -/
inductive HttpOutcome
  | status (code : Nat)
  | timeoutError
  | connectorError
  | responseError
  | osError
  | serverDisconnected
  | otherRaise
deriving DecidableEq, Repr

/-- Behaviour of the probed server: the outcome of a HEAD attempt, the
outcome of a full GET attempt, and the length of the body a full GET
would stream. -/
structure Server where
  headOutcome : HttpOutcome
  fullOutcome : HttpOutcome
  bodyLen : Nat
deriving DecidableEq, Repr

/-- A write funnelled into the result tables of the store, mirroring
`DatabaseIO.log_url_is_fine`, `log_redirect`, `log_error` and
`log_exception`. -/
inductive DbEvent
  | urlFine (url : String)
  | redirect (url : String) (code : Nat)
  | httpError (url : String) (code : Nat)
  | exceptionRow (url : String) (reason : String)
deriving DecidableEq, Repr

/-- Result of probing one URL: the database writes it performed, the
counter increments (`fine`, `checked_urls`, `neededFullRequest`), the
number of body bytes read, and whether a raised condition propagated
out of `validate_url`. -/
structure ProbeResult where
  events : List DbEvent
  fineCount : Nat
  checkedCount : Nat
  neededFullRequest : Nat
  bytesRead : Nat
  propagated : Bool
deriving DecidableEq, Repr

/-- `UrlCheck.validate_url` (url_check.py lines 93-125): issues only a
HEAD request and classifies the status code.  There is no full-request
fallback in this variant: 403 is grouped with 404 and 410 and logged as
an error at once.  An out-of-taxonomy raised condition is logged and
swallowed without any database write. -/
def ucValidateUrl (srv : Server) (url : String) : ProbeResult :=
  match srv.headOutcome with
  | .status c =>
    if c = 200 ∨ c = 302 ∨ c = 303 ∨ c = 307 then
      ⟨[.urlFine url], 1, 1, 0, 0, false⟩
    else if c = 301 ∨ c = 308 then
      ⟨[.redirect url c], 0, 1, 0, 0, false⟩
    else if c = 403 ∨ c = 404 ∨ c = 410 then
      ⟨[.httpError url c], 0, 1, 0, 0, false⟩
    else if c = 429 then
      ⟨[.exceptionRow url "Rate Limit (429)"], 0, 1, 0, 0, false⟩
    else
      ⟨[.exceptionRow url ("Other (" ++ toString c ++ ")")], 0, 1, 0, 0, false⟩
  | .timeoutError => ⟨[.exceptionRow url "Timeout"], 0, 1, 0, 0, false⟩
  | .connectorError => ⟨[.exceptionRow url "ClientConnectorError"], 0, 1, 0, 0, false⟩
  | .responseError => ⟨[.exceptionRow url "ClientResponseError"], 0, 1, 0, 0, false⟩
  | .osError => ⟨[.exceptionRow url "ClientOSError"], 0, 1, 0, 0, false⟩
  | .serverDisconnected => ⟨[.exceptionRow url "Server disconnected"], 0, 1, 0, 0, false⟩
  | .otherRaise => ⟨[], 0, 1, 0, 0, false⟩

/-- The full-request leg of `NetworkInteraction.validate_url`
(network_interaction.py, the recursive call with `request_type='full'`):
`full_request` reads at most the first 100 bytes of the body and the
`neededFullRequest` counter is incremented once the response arrived.
On 403 the error is recorded; any other unexpected status is recorded
as an exception; transport failures are caught by the taxonomy; an
out-of-taxonomy raised condition is logged and re-raised. -/
def niValidateFull (srv : Server) (url : String) : ProbeResult :=
  match srv.fullOutcome with
  | .status c =>
    let br := min srv.bodyLen 100
    if c = 200 ∨ c = 302 ∨ c = 303 ∨ c = 307 then
      ⟨[.urlFine url], 1, 0, 1, br, false⟩
    else if c = 301 ∨ c = 308 then
      ⟨[.redirect url c], 0, 0, 1, br, false⟩
    else if c = 403 then
      ⟨[.httpError url 403], 0, 0, 1, br, false⟩
    else if c = 404 ∨ c = 410 then
      ⟨[.httpError url c], 0, 0, 1, br, false⟩
    else if c = 429 then
      ⟨[.exceptionRow url "Rate Limit (429)"], 0, 0, 1, br, false⟩
    else
      ⟨[.exceptionRow url ("Other (" ++ toString c ++ ")")], 0, 0, 1, br, false⟩
  | .timeoutError => ⟨[.exceptionRow url "Timeout"], 0, 0, 0, 0, false⟩
  | .connectorError => ⟨[.exceptionRow url "ClientConnectorError"], 0, 0, 0, 0, false⟩
  | .responseError => ⟨[.exceptionRow url "ClientResponseError"], 0, 0, 0, 0, false⟩
  | .osError => ⟨[.exceptionRow url "ClientOSError"], 0, 0, 0, 0, false⟩
  | .serverDisconnected => ⟨[.exceptionRow url "Server disconnected"], 0, 0, 0, 0, false⟩
  | .otherRaise => ⟨[], 0, 0, 0, 0, true⟩

/-- `NetworkInteraction.validate_url` with `request_type='head'`
(network_interaction.py lines 107-152): a HEAD status of 403, or any
status outside the explicitly classified codes, retries once as a full
request with a bounded body read.  Transport failures are recorded from
the fixed taxonomy; an out-of-taxonomy raised condition is logged and
re-raised out of the worker. -/
def niValidateHead (srv : Server) (url : String) : ProbeResult :=
  match srv.headOutcome with
  | .status c =>
    if c = 200 ∨ c = 302 ∨ c = 303 ∨ c = 307 then
      ⟨[.urlFine url], 1, 0, 0, 0, false⟩
    else if c = 301 ∨ c = 308 then
      ⟨[.redirect url c], 0, 0, 0, 0, false⟩
    else if c = 403 then
      niValidateFull srv url
    else if c = 404 ∨ c = 410 then
      ⟨[.httpError url c], 0, 0, 0, 0, false⟩
    else if c = 429 then
      ⟨[.exceptionRow url "Rate Limit (429)"], 0, 0, 0, 0, false⟩
    else
      niValidateFull srv url
  | .timeoutError => ⟨[.exceptionRow url "Timeout"], 0, 0, 0, 0, false⟩
  | .connectorError => ⟨[.exceptionRow url "ClientConnectorError"], 0, 0, 0, 0, false⟩
  | .responseError => ⟨[.exceptionRow url "ClientResponseError"], 0, 0, 0, 0, false⟩
  | .osError => ⟨[.exceptionRow url "ClientOSError"], 0, 0, 0, 0, false⟩
  | .serverDisconnected => ⟨[.exceptionRow url "Server disconnected"], 0, 0, 0, 0, false⟩
  | .otherRaise => ⟨[], 0, 0, 0, 0, true⟩

/-- A row of the `queue` table (memory_instance.py `create_schema`,
filled by `DatabaseIO.save_found_links`). -/
structure LinkRow where
  filePath : String
  hostname : String
  url : String
  normalizedUrl : String
  linktext : String
deriving DecidableEq, Repr

/-- The in-memory relational store of one run (memory_instance.py
`create_schema`): the staged links, the run-scoped result tables and
the two cache tables.  Inserts append rows at the end. -/
structure Store where
  queue : List LinkRow
  errors : List (String × Nat)
  permanentRedirects : List (String × Nat)
  exceptions : List (String × String)
  validUrls : List (String × Int)
  validDois : List (String × Int)
deriving DecidableEq, Repr

/-- A freshly created in-memory store: every table empty. -/
def emptyStore : Store := ⟨[], [], [], [], [], []⟩

/-- Contents of the on-disk cache file: the `validUrls` and `validDois`
tables. -/
structure DiskCache where
  validUrls : List (String × Int)
  validDois : List (String × Int)
deriving DecidableEq, Repr

/-- `CacheReader.load_disk_cache` (cache_reader.py lines 65-107): read
from the cache file the valid URLs whose `lastValid` satisfies
`lastValid > now − hours·3600` and all valid DOIs, and insert them into
the in-memory store. -/
def loadDiskCache (disk : DiskCache) (now ttlHours : Int) (st : Store) : Store :=
  { st with
    validUrls := st.validUrls ++
      disk.validUrls.filter (fun r => now - ttlHours * 3600 < r.2),
    validDois := st.validDois ++ disk.validDois }

/-- `DatabaseIO.save_found_links` (database_io.py lines 231-240):
bulk-insert staged link rows. -/
def saveFoundLinks (rows : List LinkRow) (st : Store) : Store :=
  { st with queue := st.queue ++ rows }

/-- `DatabaseIO.del_links_that_can_be_skipped` (database_io.py lines
288-310): delete from the staged links every row whose normalized URL
appears in the in-memory `validUrls` table; return the number of rows
left. -/
def delLinksThatCanBeSkipped (st : Store) : Store × Nat :=
  let remaining := st.queue.filter
    (fun l => decide (l.normalizedUrl ∉ st.validUrls.map Prod.fst))
  ({ st with queue := remaining }, remaining.length)

/-- Helper for `SELECT DISTINCT` over a column: keep the first
occurrence of each value, in scan order. -/
def sqlDistinctAux (seen : List String) : List String → List String
  | [] => []
  | x :: xs =>
    if x ∈ seen then sqlDistinctAux seen xs
    else x :: sqlDistinctAux (x :: seen) xs

/-- First-occurrence deduplication, the semantics of `SELECT DISTINCT`. -/
def sqlDistinct (l : List String) : List String := sqlDistinctAux [] l

/-- `DatabaseIO.urls_to_check` (database_io.py lines 242-245):
`SELECT DISTINCT normalizedUrl FROM links`. -/
def urlsToCheck (st : Store) : List String :=
  sqlDistinct (st.queue.map (·.normalizedUrl))

/-- Apply one classification write to the store.  `urlFine` mirrors
`DatabaseIO.log_url_is_fine` (database_io.py lines 247-254), recording
the normalized URL with the current epoch-seconds timestamp. -/
def applyEvent (now : Int) (st : Store) : DbEvent → Store
  | .urlFine url => { st with validUrls := st.validUrls ++ [(url, now)] }
  | .redirect url c =>
      { st with permanentRedirects := st.permanentRedirects ++ [(url, c)] }
  | .httpError url c => { st with errors := st.errors ++ [(url, c)] }
  | .exceptionRow url r => { st with exceptions := st.exceptions ++ [(url, r)] }

/-- One dequeued probe of the URL pool: the URL, the epoch-seconds
instant at which its classification writes happen, and the behaviour of
the probed server. -/
structure Probe where
  url : String
  time : Int
  server : Server
deriving Repr

/-- Process one probe with the `UrlCheck` engine and funnel its writes
into the store. -/
def runProbe (st : Store) (p : Probe) : Store :=
  (ucValidateUrl p.server p.url).events.foldl (applyEvent p.time) st

/-- Drain the probe queue: the URL phase of a run. -/
def runUrlCheck (st : Store) (ps : List Probe) : Store :=
  ps.foldl runProbe st

/-- `CacheReader.overwrite_cache_file` (cache_reader.py lines 109-119):
unlink the cache file and back the in-memory database up into a fresh
file, so the disk cache becomes the current in-memory tables. -/
def overwriteCacheFile (st : Store) : DiskCache :=
  ⟨st.validUrls, st.validDois⟩

/-- `DatabaseIO.count_errors` (database_io.py lines 312-315). -/
def countErrors (st : Store) : Nat := st.errors.length

/-- The externally visible steps at the end of `Salted.check`. -/
inductive RunStep
  | generateDbViews
  | generateReport
  | overwriteCache
  | tearDownDb
deriving DecidableEq, Repr

/-- Tail of `Salted.check` (__main__.py lines 189-227) after both probe
phases: generate the views, render the report, then the
`raise_for_dead_links` gate (lines 223-225), then `overwrite_cache_file`
and the tear-down (lines 226-227).  The second component is `true` when
a `DeadLinksException` is raised; the raise aborts the remaining
statements of the method. -/
def checkFinalize (raiseForDeadLinks : Bool) (st : Store) :
    List RunStep × Bool :=
  let steps := [RunStep.generateDbViews, RunStep.generateReport]
  if raiseForDeadLinks = true ∧ 0 < countErrors st then
    (steps, true)
  else
    (steps ++ [RunStep.overwriteCache, RunStep.tearDownDb], false)

/-- Python exception kinds raised by the embedded code. -/
inductive PyError
  | keyError
  | valueError
deriving DecidableEq, Repr

/-- The choice of worker count handed to the probers: the string
`'automatic'` or an explicit integer. -/
inductive NumWorkers
  | automatic
  | explicitNum (w : Int)
deriving DecidableEq, Repr

/-- `UrlCheck.__recommend_num_workers` (url_check.py lines 54-80):
start from 4, then the chain `24 < n < 100 → 12`, `elif n > 99 → 32`,
`elif n > 5000 → 64`; with an explicit integer that integer is
returned.  With `'automatic'` and `n < 1` a `ValueError` is raised. -/
def recommendNumWorkersUC (numWorkers : NumWorkers) (numChecks : Nat) :
    Except PyError Int :=
  match numWorkers with
  | .explicitNum w => .ok w
  | .automatic =>
    if numChecks < 1 then .error .valueError
    else .ok (
      if 24 < numChecks ∧ numChecks < 100 then 12
      else if 99 < numChecks then 32
      else if 5000 < numChecks then 64
      else 4)

/-- `NetworkInteraction.__recommend_num_workers`
(network_interaction.py lines 56-79): `n < 25 → 4`, `elif n < 100 → 12`,
`elif n > 99 → 32` (for n ≥ 100 the last guard always holds). -/
def recommendNumWorkersNI (numWorkers : NumWorkers) (numChecks : Nat) :
    Except PyError Int :=
  match numWorkers with
  | .explicitNum w => .ok w
  | .automatic =>
    if numChecks < 1 then .error .valueError
    else if numChecks < 25 then .ok 4
    else if numChecks < 100 then .ok 12
    else .ok 32

/-- The worker-count table exactly as the specification words it:
`≤ 24 → 4`, `25–99 → 12`, `100–4999 → 32`, `≥ 5000 → 64`.  Spec-side
definition, for comparison with the code's recommendation. -/
def specNumWorkers (n : Nat) : Int :=
  if n ≤ 24 then 4 else if n ≤ 99 then 12 else if n ≤ 4999 then 32 else 64

/-- Python's `round` on a rational: round half to even. -/
def pythonRound (q : ℚ) : ℤ :=
  if q - ⌊q⌋ < 1 / 2 then ⌊q⌋
  else if 1 / 2 < q - ⌊q⌋ then ⌊q⌋ + 1
  else if ⌊q⌋ % 2 = 0 then ⌊q⌋ else ⌊q⌋ + 1

/-- Number of DOI workers, `DoiCheck.NUM_API_WORKERS` (doi_check.py
line 27). -/
def NUM_API_WORKERS : Nat := 5

/-- `DoiCheck.__rate_limit_wait` (doi_check.py lines 60-84): two
validations — the second of which again tests `max_queries`, the
`seconds` parameter is never examined — then
`max_queries = round(max_queries * 0.9)` and a sleep of
`(seconds / max_queries) * NUM_API_WORKERS`.  The float literal `0.9`
is modelled as the rational 9/10 and the division exactly. -/
def rateLimitWait (maxQueries seconds : Int) : Except PyError ℚ :=
  if maxQueries < 1 then .error .valueError
  else if maxQueries < 1 then .error .valueError
  else
    let mq : ℤ := pythonRound ((maxQueries : ℚ) * (9 / 10))
    .ok (((seconds : ℚ) / (mq : ℚ)) * (NUM_API_WORKERS : ℚ))

/-- The per-worker sleep exactly as the specification words it:
`(seconds / (0.9 · max_queries)) · N_workers`.  Spec-side definition,
for comparison with the sleep the code computes. -/
def specSleepFormula (maxQueries seconds : Int) : ℚ :=
  ((seconds : ℚ) / ((9 / 10) * (maxQueries : ℚ))) * (NUM_API_WORKERS : ℚ)

/-- Case-sensitive lookup of an HTTP header value. -/
def lookupHeader (headers : List (String × String)) (k : String) :
    Option String :=
  (headers.find? (fun h => h.1 == k)).map Prod.snd

/-- Python `str.rstrip('s')`: drop trailing `'s'` characters. -/
def pyRstripS (v : String) : String :=
  ⟨(v.toList.reverse.dropWhile (· = 's')).reverse⟩

/-- Python `str.strip()`: drop surrounding whitespace. -/
def pyStrip (v : String) : String := v.trim

/-- The dictionary returned by `DoiCheck.__api_send_head_request`. -/
structure ApiResponse where
  maxQueries : String
  seconds : String
  status : Nat
deriving DecidableEq, Repr

/-- `DoiCheck.__api_send_head_request` (doi_check.py lines 86-106):
reads `X-Rate-Limit-Interval` (stripping the trailing `s`) and
`X-Rate-Limit-Limit` directly out of the response headers.  A missing
header raises `KeyError`; no default value is substituted. -/
def apiSendHeadRequest (headers : List (String × String)) (status : Nat) :
    Except PyError ApiResponse :=
  match lookupHeader headers "X-Rate-Limit-Interval" with
  | none => .error .keyError
  | some tw =>
    match lookupHeader headers "X-Rate-Limit-Limit" with
    | none => .error .keyError
    | some mq => .ok ⟨mq, pyStrip (pyRstripS tw), status⟩

/-- Verdict of one DOI probe. -/
inductive DoiClass
  | valid
  | invalid
  | unexpected
deriving DecidableEq, Repr

/-- Python `int(str)` conversion; a non-numeric string raises
`ValueError`. -/
def pyToInt (v : String) : Except PyError Int :=
  match v.toInt? with
  | some n => .ok n
  | none => .error .valueError

/-- One iteration of `DoiCheck.__worker` (doi_check.py lines 108-130):
send the API request, classify the status (200 valid, 404 invalid,
anything else unexpected), then wait out the rate limit computed from
the headers.  The body has no exception handler, so any raised
condition propagates out of the worker. -/
def doiWorkerStep (headers : List (String × String)) (status : Nat) :
    Except PyError (DoiClass × ℚ) :=
  match apiSendHeadRequest headers status with
  | .error e => .error e
  | .ok resp =>
    let cls :=
      if resp.status = 200 then DoiClass.valid
      else if resp.status = 404 then DoiClass.invalid
      else DoiClass.unexpected
    match pyToInt resp.maxQueries with
    | .error e => .error e
    | .ok mq =>
      match pyToInt resp.seconds with
      | .error e => .error e
      | .ok s =>
        match rateLimitWait mq s with
        | .error e => .error e
        | .ok t => .ok (cls, t)

/-- The header-fallback behaviour exactly as the specification words
it: when either rate-limit header is absent, continue with the
conservative default budget of 5 requests per 1 second.  Spec-side
definition, for comparison with the code. -/
def specHeaderFallback (headers : List (String × String)) :
    Option (Int × Int) :=
  if (lookupHeader headers "X-Rate-Limit-Limit").isNone ∨
      (lookupHeader headers "X-Rate-Limit-Interval").isNone
  then some (5, 1) else none

/-- Rows handed to `save_found_dois`:
`(file_path, doi, context)` per found DOI
(input_handler.py lines 177-179). -/
def doiRows (filePath : String) (doiList : List (String × String)) :
    List (String × String × String) :=
  doiList.map (fun e => (filePath, e.1, e.2))

/-- The `while last <= len(dois_found) - 1` loop of
`InputHandler.handle_found_dois` (input_handler.py lines 182-191):
emit the slice `dois_found[first:last]`, advance both cursors by the
step 50, and stop as soon as `last` exceeds `len − 1`. -/
def doiBatchLoop (rows : List (String × String × String))
    (first last : Nat) : List (List (String × String × String)) :=
  if h : last ≤ rows.length - 1 then
    ((rows.drop first).take (last - first)) ::
      doiBatchLoop rows (first + 50) (last + 50)
  else []
termination_by rows.length + 1 - last
decreasing_by omega

/-- `InputHandler.handle_found_dois` (input_handler.py lines 167-192):
returns the list of batches handed to `save_found_dois`.  Fewer than 50
rows are sent in a single batch; otherwise the while-loop above slices
the list in pieces of 50. -/
def handleFoundDois (filePath : String)
    (doiList : List (String × String)) :
    List (List (String × String × String)) :=
  if doiList.isEmpty then []
  else
    let dois := doiRows filePath doiList
    if dois.length < 50 then [dois]
    else doiBatchLoop dois 0 50

/-- The set of URLs handed to the probe pool in one run, composed as
`Salted.check` does (__main__.py lines 135-182): load the disk cache
into a fresh store, stage the scanned links, delete the links that can
be skipped, then take the distinct normalized URLs. -/
def probeSetOfRun (queueRows : List LinkRow) (disk : DiskCache)
    (now ttlHours : Int) : List String :=
  let st0 := loadDiskCache disk now ttlHours emptyStore
  let st1 := saveFoundLinks queueRows st0
  urlsToCheck (delLinksThatCanBeSkipped st1).1

/-- The probe set exactly as the specification words it: the distinct
normalized URLs of the ingested links minus those present in the cache
with `now − last_valid ≤ TTL_hours·3600`.  Spec-side definition, for
comparison with the probe set the code computes. -/
def specProbeSet (queueRows : List LinkRow) (disk : DiskCache)
    (now ttlHours : Int) : List String :=
  (sqlDistinct (queueRows.map (·.normalizedUrl))).filter
    (fun u => decide (¬ ∃ e ∈ disk.validUrls,
      e.1 = u ∧ now - e.2 ≤ ttlHours * 3600))

/-- Head outcomes the `UrlCheck` engine classifies as fine. -/
def isFineOutcome : HttpOutcome → Bool
  | .status c => decide (c = 200 ∨ c = 302 ∨ c = 303 ∨ c = 307)
  | _ => false

/-- A store holding exactly one row in the `errors` table. -/
def deadLinkStore : Store :=
  applyEvent 0 emptyStore (.httpError "https://www.example.com/dead" 404)

/-- A server answering 403 to the HEAD attempt and 200 to a full GET,
streaming a 1000-byte body. -/
def server403then200 : Server := ⟨.status 403, .status 200, 1000⟩

/-- A server whose probe raises a condition outside the fixed
taxonomy. -/
def serverUnknownRaise : Server := ⟨.otherRaise, .otherRaise, 0⟩

/-- A staged link and a disk cache whose entry is exactly TTL·3600
seconds old at probe time. -/
def exampleRow : LinkRow :=
  ⟨"page.html", "www.example.com", "https://www.example.com/",
   "https://www.example.com/", "text"⟩

/-- Disk cache holding the example URL validated at epoch second 0. -/
def exampleDisk : DiskCache := ⟨[("https://www.example.com/", 0)], []⟩

/-- A DOI list of exactly the batch size 50. -/
def fiftyDois : List (String × String) :=
  List.replicate 50 ("10.1000/182", "doi")

/-- C1: with `raise_for_dead_links = true` and one row in the errors
table, `Salted.check` raises the `DeadLinksException` — but the raise
happens before the `overwrite_cache_file` statement, so the cache file
is never rewritten on that path.  This evaluates the finalization of
`Salted.check` at the failing input and contradicts the claim that the
rewrite completes before the exception is raised. -/
theorem dead_link_gate_skips_cache_write :
    (checkFinalize true deadLinkStore).2 = true ∧
    RunStep.overwriteCache ∉ (checkFinalize true deadLinkStore).1 := by
  decide

/-- C2: for a server answering 403 to HEAD and 200 to GET, the
`UrlCheck` engine wired into `Salted.check` records error(403) at once,
performs no full request (`neededFullRequest = 0`) and never classifies
the URL fine — contradicting the claim (and the engine's own docstring);
the `NetworkInteraction` variant implements exactly the claimed
behaviour: one full GET reading at most 100 bytes, classified fine. -/
theorem head_403_recorded_without_fallback :
    ucValidateUrl server403then200 "https://www.example.com/" =
      ⟨[.httpError "https://www.example.com/" 403], 0, 1, 0, 0, false⟩ ∧
    niValidateHead server403then200 "https://www.example.com/" =
      ⟨[.urlFine "https://www.example.com/"], 1, 0, 1, 100, false⟩ := by
  decide

/-- C5 counterexample: for a probe raising a condition outside the
fixed taxonomy, the `UrlCheck` engine writes no `exception("Unknown")`
row (it writes nothing at all), and in the `NetworkInteraction` variant
the condition propagates out of the worker — both contradicting the
claim. -/
theorem unknown_raise_not_recorded_cx :
    DbEvent.exceptionRow "https://www.example.com/" "Unknown" ∉
      (ucValidateUrl serverUnknownRaise "https://www.example.com/").events ∧
    (niValidateHead serverUnknownRaise "https://www.example.com/").propagated
      = true := by
  decide

/-- C6 counterexample: with no rate-limit headers present, one worker
iteration terminates with a `KeyError` that escapes the worker, while
the specification's fallback rule would continue with the default
budget of 5 requests per 1 second. -/
theorem missing_rate_limit_header_cx :
    doiWorkerStep [] 200 = .error .keyError ∧
    specHeaderFallback [] = some (5, 1) :=
  ⟨rfl, rfl⟩

/-- C9: handed a DOI list of exactly the batch size 50,
`handle_found_dois` emits no batch at all — the while-loop guard
`last <= len(dois_found) - 1` is false at `50 <= 49` — so zero of the
50 rows are persisted, contradicting the claim that every entry lands
in exactly one batch. -/
theorem doi_batch_of_fifty_saves_nothing :
    fiftyDois.length = 50 ∧
    ((handleFoundDois "references.bib" fiftyDois).map List.length).sum = 0 := by
  constructor
  · decide
  · simp [handleFoundDois, doiRows, fiftyDois]
    rw [doiBatchLoop]
    simp

/-- C3 counterexample: at the TTL boundary the claim and the code
disagree.  With `now = 86400`, TTL 24 h and a cache entry of age exactly
24·3600 seconds, the code probes the URL (the load uses the strict
`lastValid > now − TTL·3600`), while the probe set as the specification
words it (age `≤ TTL·3600` suppresses the probe) excludes it. -/
theorem probe_set_ttl_boundary_cx :
    "https://www.example.com/" ∈ probeSetOfRun [exampleRow] exampleDisk 86400 24 ∧
    "https://www.example.com/" ∉ specProbeSet [exampleRow] exampleDisk 86400 24 := by
  decide

theorem mem_sqlDistinctAux (seen l : List String) (u : String) :
    u ∈ sqlDistinctAux seen l ↔ u ∈ l ∧ u ∉ seen := by
  induction l generalizing seen with
  | nil => simp [sqlDistinctAux]
  | cons x xs ih =>
    simp only [sqlDistinctAux]
    by_cases hx : x ∈ seen
    · rw [if_pos hx, ih]
      constructor
      · rintro ⟨h1, h2⟩
        exact ⟨List.mem_cons_of_mem _ h1, h2⟩
      · rintro ⟨h1, h2⟩
        rcases List.mem_cons.mp h1 with rfl | h1
        · exact absurd hx h2
        · exact ⟨h1, h2⟩
    · rw [if_neg hx]
      simp only [List.mem_cons, ih, List.mem_cons, not_or]
      constructor
      · rintro (rfl | ⟨h1, h2, h3⟩)
        · exact ⟨Or.inl rfl, hx⟩
        · exact ⟨Or.inr h1, h3⟩
      · rintro ⟨rfl | h1, h2⟩
        · exact Or.inl rfl
        · by_cases hux : u = x
          · exact Or.inl hux
          · exact Or.inr ⟨h1, hux, h2⟩

theorem nodup_sqlDistinctAux (seen l : List String) :
    (sqlDistinctAux seen l).Nodup := by
  induction l generalizing seen with
  | nil => simp [sqlDistinctAux]
  | cons x xs ih =>
    simp only [sqlDistinctAux]
    split
    · exact ih seen
    · refine List.Nodup.cons ?_ (ih (x :: seen))
      intro hmem
      exact ((mem_sqlDistinctAux _ _ _).mp hmem).2 (List.mem_cons_self x seen)

theorem mem_sqlDistinct (l : List String) (u : String) :
    u ∈ sqlDistinct l ↔ u ∈ l := by
  rw [sqlDistinct, mem_sqlDistinctAux]
  simp

theorem nodup_sqlDistinct (l : List String) : (sqlDistinct l).Nodup :=
  nodup_sqlDistinctAux [] l

/-- C3 (amended): in every run, the set of URLs handed to the probe
pool equals the distinct normalized URLs of the ingested links minus
those present in the disk cache with `last_valid > now − TTL_hours·3600`
(equivalently `now − last_valid` strictly below `TTL_hours·3600`), and
the probe list has no duplicates, so each normalized URL is probed at
most once per run. -/
theorem probe_set_characterization (rows : List LinkRow) (disk : DiskCache)
    (now ttl : Int) :
    (∀ u, u ∈ probeSetOfRun rows disk now ttl ↔
      ((∃ r ∈ rows, r.normalizedUrl = u) ∧
        ¬ ∃ e ∈ disk.validUrls, e.1 = u ∧ now - ttl * 3600 < e.2)) ∧
    (probeSetOfRun rows disk now ttl).Nodup := by
  constructor
  · intro u
    simp only [probeSetOfRun, urlsToCheck, delLinksThatCanBeSkipped,
      saveFoundLinks, loadDiskCache, emptyStore, List.nil_append,
      mem_sqlDistinct, List.mem_map, List.mem_filter, decide_eq_true_eq]
    aesop
  · simp only [probeSetOfRun, urlsToCheck]
    exact nodup_sqlDistinct _

theorem runProbe_validUrls (st : Store) (p : Probe) :
    (runProbe st p).validUrls =
      st.validUrls ++
        (if isFineOutcome p.server.headOutcome then [(p.url, p.time)]
         else []) := by
  rcases p with ⟨url, time, srv⟩
  rcases srv with ⟨ho, fo, bl⟩
  simp only [runProbe, ucValidateUrl, isFineOutcome]
  cases ho with
  | status c =>
    by_cases h1 : c = 200 ∨ c = 302 ∨ c = 303 ∨ c = 307
    · simp [h1, applyEvent]
    · by_cases h2 : c = 301 ∨ c = 308
      · simp [h1, h2, applyEvent]
      · by_cases h3 : c = 403 ∨ c = 404 ∨ c = 410
        · simp [h1, h2, h3, applyEvent]
        · by_cases h4 : c = 429
          · simp [h1, h2, h3, h4, applyEvent]
          · simp [h1, h2, h3, h4, applyEvent]
  | timeoutError => simp [applyEvent]
  | connectorError => simp [applyEvent]
  | responseError => simp [applyEvent]
  | osError => simp [applyEvent]
  | serverDisconnected => simp [applyEvent]
  | otherRaise => simp [applyEvent]

theorem runUrlCheck_validUrls (st : Store) (ps : List Probe) :
    (runUrlCheck st ps).validUrls =
      st.validUrls ++
        (ps.filter (fun p => isFineOutcome p.server.headOutcome)).map
          (fun p => (p.url, p.time)) := by
  induction ps generalizing st with
  | nil => simp [runUrlCheck]
  | cons p ps ih =>
    have hstep : runUrlCheck st (p :: ps) = runUrlCheck (runProbe st p) ps := rfl
    rw [hstep, ih, runProbe_validUrls]
    by_cases hf : isFineOutcome p.server.headOutcome
    · simp [hf, List.filter_cons]
    · simp [hf, List.filter_cons]

/-- C8: for every run with a cache path configured, the `validUrls`
table of the on-disk cache after write-back contains exactly the rows
loaded from the previous cache and still fresh, plus one row — stamped
with the probe-time epoch seconds — for each URL classified fine this
run, and nothing else. -/
theorem cache_writeback_valid_urls (disk : DiskCache) (now ttl : Int)
    (ps : List Probe) :
    (overwriteCacheFile
        (runUrlCheck (loadDiskCache disk now ttl emptyStore) ps)).validUrls =
      disk.validUrls.filter (fun r => now - ttl * 3600 < r.2) ++
        (ps.filter (fun p => isFineOutcome p.server.headOutcome)).map
          (fun p => (p.url, p.time)) := by
  simp [overwriteCacheFile, runUrlCheck_validUrls, loadDiskCache, emptyStore]

/-- C4 counterexample: with `num_workers = 'automatic'` and a probe set
of 5000 URLs the code picks 32 workers — the `num_checks > 5000 → 64`
branch is unreachable behind `num_checks > 99 → 32` — while the claim's
table demands 64 for n ≥ 5000. -/
theorem auto_workers_5000_cx :
    recommendNumWorkersUC .automatic 5000 = .ok 32 ∧
    specNumWorkers 5000 = 64 :=
  ⟨rfl, rfl⟩

/-- C4 (amended): for every probe set of n ≥ 1 distinct URLs with
`num_workers = 'automatic'`, both prober variants choose 4 workers for
n ≤ 24, 12 for 25 ≤ n ≤ 99 and 32 for every n ≥ 100 (the 64-worker
branch is dead code); an explicit integer w is used exactly. -/
theorem recommend_num_workers_total (n : Nat) (hn : 1 ≤ n) (w : Int) :
    recommendNumWorkersUC .automatic n =
      .ok (if n ≤ 24 then 4 else if n ≤ 99 then 12 else 32) ∧
    recommendNumWorkersNI .automatic n = recommendNumWorkersUC .automatic n ∧
    recommendNumWorkersUC (.explicitNum w) n = .ok w := by
  refine ⟨?_, ?_, rfl⟩
  · simp only [recommendNumWorkersUC, if_neg (by omega : ¬ n < 1)]
    congr 1
    split_ifs <;> omega
  · simp only [recommendNumWorkersUC, recommendNumWorkersNI,
      if_neg (by omega : ¬ n < 1)]
    split_ifs <;> simp [Except.ok.injEq] <;> omega

/-- Witness for C4 at probe-set size 3 and explicit worker count 7. -/
theorem recommend_num_workers_total_witness :
    recommendNumWorkersUC .automatic 3 =
      .ok (if 3 ≤ 24 then 4 else if 3 ≤ 99 then 12 else 32) ∧
    recommendNumWorkersNI .automatic 3 = recommendNumWorkersUC .automatic 3 ∧
    recommendNumWorkersUC (.explicitNum 7) 3 = .ok 7 :=
  recommend_num_workers_total 3 (by norm_num) 7

/-- C5 (amended): for every probe whose raised condition falls outside
the fixed taxonomy, the `UrlCheck` engine logs it, records nothing in
any result table and does not let it propagate, while the
`NetworkInteraction` variant logs it and re-raises it out of the
worker; neither variant records an exception("Unknown") row. -/
theorem unknown_raise_behaviour (srv : Server) (url : String)
    (h : srv.headOutcome = .otherRaise) :
    (ucValidateUrl srv url).events = [] ∧
    (ucValidateUrl srv url).propagated = false ∧
    (niValidateHead srv url).events = [] ∧
    (niValidateHead srv url).propagated = true := by
  rcases srv with ⟨ho, fo, bl⟩
  simp only at h
  subst h
  simp [ucValidateUrl, niValidateHead]

/-- Witness for C5 at a concrete server and URL. -/
theorem unknown_raise_behaviour_witness :
    (ucValidateUrl serverUnknownRaise "https://www.example.com/a").events = [] ∧
    (ucValidateUrl serverUnknownRaise "https://www.example.com/a").propagated
      = false ∧
    (niValidateHead serverUnknownRaise "https://www.example.com/a").events = [] ∧
    (niValidateHead serverUnknownRaise "https://www.example.com/a").propagated
      = true :=
  unknown_raise_behaviour serverUnknownRaise "https://www.example.com/a" rfl

/-- C6 (amended): whenever either rate-limit header is absent from the
API response, the lookup inside `__api_send_head_request` raises a
`KeyError` which propagates out of the DOI worker; no default budget is
substituted. -/
theorem missing_rate_limit_header_raises (headers : List (String × String))
    (status : Nat)
    (h : lookupHeader headers "X-Rate-Limit-Interval" = none ∨
         lookupHeader headers "X-Rate-Limit-Limit" = none) :
    doiWorkerStep headers status = .error .keyError := by
  rcases h with h | h
  · simp [doiWorkerStep, apiSendHeadRequest, h]
  · cases hI : lookupHeader headers "X-Rate-Limit-Interval" with
    | none => simp [doiWorkerStep, apiSendHeadRequest, hI]
    | some tw => simp [doiWorkerStep, apiSendHeadRequest, hI, h]

/-- Witness for C6 at empty headers and status 200. -/
theorem missing_rate_limit_header_raises_witness :
    doiWorkerStep [] 200 = .error .keyError :=
  missing_rate_limit_header_raises [] 200 (Or.inl rfl)

theorem pythonRound_intCast (n : ℤ) : pythonRound ((n : ℤ) : ℚ) = n := by
  unfold pythonRound
  rw [Int.floor_intCast]
  norm_num

theorem one_le_pythonRound (q : ℚ) (hq : 9 / 10 ≤ q) :
    1 ≤ pythonRound q := by
  have hf0 : (0 : ℤ) ≤ ⌊q⌋ := Int.le_floor.mpr (by push_cast; linarith)
  unfold pythonRound
  split_ifs with h1 h2 h3
  · rcases eq_or_lt_of_le hf0 with he | hlt
    · exfalso
      rw [← he] at h1
      push_cast at h1
      linarith
    · omega
  · omega
  · rcases eq_or_lt_of_le hf0 with he | hlt
    · exfalso
      rw [← he] at h2
      push_neg at h2
      push_cast at h2
      linarith
    · omega
  · omega

theorem one_le_pythonRound_budget (m : ℤ) (hm : 1 ≤ m) :
    1 ≤ pythonRound ((m : ℚ) * (9 / 10)) := by
  refine one_le_pythonRound _ ?_
  have h1 : (1 : ℚ) ≤ (m : ℚ) := by exact_mod_cast hm
  nlinarith

/-- C7 (amended): after a response advertising `max_queries ≥ 1`
requests per `seconds ≥ 1` seconds, each worker sleeps
`(seconds / round(0.9·max_queries)) · N_workers` seconds, where `round`
is Python's round-half-to-even; the sleep is positive, and it equals
the claimed `(seconds / (0.9·max_queries)) · N_workers` exactly when
`0.9·max_queries` is an integer, i.e. when `max_queries` is divisible
by 10. -/
theorem rate_limit_sleep_value (m s : ℤ) (hm : 1 ≤ m) (hs : 1 ≤ s) :
    ∃ t, rateLimitWait m s = .ok t ∧
      t = ((s : ℚ) / ((pythonRound ((m : ℚ) * (9 / 10)) : ℤ) : ℚ)) * 5 ∧
      0 < t ∧
      (m % 10 = 0 → t = specSleepFormula m s) := by
  have hR := one_le_pythonRound_budget m hm
  have hRpos : (0 : ℚ) <
      ((pythonRound ((m : ℚ) * (9 / 10)) : ℤ) : ℚ) := by
    exact_mod_cast lt_of_lt_of_le Int.zero_lt_one hR
  refine ⟨((s : ℚ) / ((pythonRound ((m : ℚ) * (9 / 10)) : ℤ) : ℚ)) * 5,
    ?_, rfl, ?_, ?_⟩
  · unfold rateLimitWait
    rw [if_neg (by omega), if_neg (by omega)]
    norm_num [NUM_API_WORKERS]
  · have hs' : (0 : ℚ) < (s : ℚ) := by exact_mod_cast lt_of_lt_of_le Int.zero_lt_one hs
    positivity
  · intro hdvd
    obtain ⟨k, rfl⟩ := Int.dvd_of_emod_eq_zero hdvd
    have hk1 : 1 ≤ k := by omega
    have harg : ((10 * k : ℤ) : ℚ) * (9 / 10) = ((9 * k : ℤ) : ℚ) := by
      push_cast
      ring
    have hk0 : ((9 * k : ℤ) : ℚ) ≠ 0 := by
      have : (0 : ℤ) < 9 * k := by omega
      exact_mod_cast ne_of_gt this
    rw [harg, pythonRound_intCast]
    simp only [specSleepFormula, NUM_API_WORKERS]
    push_cast
    field_simp
    ring

/-- Witness for C7 at `max_queries = 10`, `seconds = 1`. -/
theorem rate_limit_sleep_value_witness :
    ∃ t, rateLimitWait 10 1 = .ok t ∧
      t = (((1 : ℤ) : ℚ) /
        ((pythonRound (((10 : ℤ) : ℚ) * (9 / 10)) : ℤ) : ℚ)) * 5 ∧
      0 < t ∧
      ((10 : ℤ) % 10 = 0 → t = specSleepFormula 10 1) :=
  rate_limit_sleep_value 10 1 (by norm_num) (by norm_num)

/-- C10: `__rate_limit_wait` raises `ValueError` exactly when
`max_queries < 1` — both validations test `max_queries`, so `seconds`
is never examined — and for every `max_queries ≥ 1` with
`seconds ≤ 0` no error is raised and the computed sleep duration is
at most 0. -/
theorem rate_limit_wait_validation (m s : ℤ) (hm : 1 ≤ m) (hs : s ≤ 0) :
    (∀ a b : ℤ, (∃ e, rateLimitWait a b = .error e) ↔ a < 1) ∧
    ∃ t, rateLimitWait m s = .ok t ∧ t ≤ 0 := by
  constructor
  · intro a b
    constructor
    · rintro ⟨e, he⟩
      by_contra hge
      push_neg at hge
      unfold rateLimitWait at he
      rw [if_neg (by omega), if_neg (by omega)] at he
      exact absurd he (by simp)
    · intro h
      refine ⟨.valueError, ?_⟩
      unfold rateLimitWait
      rw [if_pos h]
  · have hR := one_le_pythonRound_budget m hm
    have hRpos : (0 : ℚ) <
        ((pythonRound ((m : ℚ) * (9 / 10)) : ℤ) : ℚ) := by
      exact_mod_cast lt_of_lt_of_le Int.zero_lt_one hR
    refine ⟨((s : ℚ) / ((pythonRound ((m : ℚ) * (9 / 10)) : ℤ) : ℚ)) *
        ((NUM_API_WORKERS : ℕ) : ℚ), ?_, ?_⟩
    · unfold rateLimitWait
      rw [if_neg (by omega), if_neg (by omega)]
    · have hs2 : ((s : ℤ) : ℚ) ≤ 0 := by exact_mod_cast hs
      have hdiv :
          (s : ℚ) / ((pythonRound ((m : ℚ) * (9 / 10)) : ℤ) : ℚ) ≤ 0 :=
        div_nonpos_iff.mpr (Or.inr ⟨hs2, le_of_lt hRpos⟩)
      exact mul_nonpos_iff.mpr (Or.inr ⟨hdiv, by positivity⟩)

/-- Witness for C10 at `max_queries = 1`, `seconds = 0`. -/
theorem rate_limit_wait_validation_witness :
    (∀ a b : ℤ, (∃ e, rateLimitWait a b = .error e) ↔ a < 1) ∧
    ∃ t, rateLimitWait 1 0 = .ok t ∧ t ≤ 0 :=
  rate_limit_wait_validation 1 0 (by norm_num) (by norm_num)

/-- C7 counterexample: for an advertised budget of 1 request per 1
second the code sleeps `(1 / round(0.9·1)) · 5 = 5` seconds, while the
claimed formula gives `(1 / (0.9·1)) · 5 = 50/9` — the two differ, so
the sleep is not the claimed value. -/
theorem rate_limit_sleep_rounding_cx :
    rateLimitWait 1 1 = .ok 5 ∧ specSleepFormula 1 1 ≠ 5 := by
  constructor
  · have h : pythonRound ((9 : ℚ) / 10) = 1 := by
      unfold pythonRound
      norm_num
    unfold rateLimitWait
    norm_num [h, NUM_API_WORKERS]
  · norm_num [specSleepFormula, NUM_API_WORKERS]

end Salted
